import Mathlib

/-!
Shallow embedding of the provisioning / lifecycle orchestrator of the
media-server-cloud repository.

The embedded code:
  * `backend/src/services/hetzner-service.ts` (`HetznerService`):
    `createCustomerStorage`, `mountCustomerStorage`, `deleteCustomerStorage`,
    built on `executeSSHCommand` / `executeLocalCommand`;
  * `backend/src/services/docker-service.ts` (`DockerService`):
    `createMediaServerContainer` (with `pullImageIfNeeded` and
    `getEnvironmentVariables`), `stopContainer`, `startContainer`,
    `removeContainer`;
  * `backend/src/routes/containers.ts`: the `POST /` create route,
    `POST /:id/start` and `POST /:id/stop`;
  * `backend/src/routes/webhooks.ts`: `handleSubscriptionDeleted`
    (Stripe `customer.subscription.deleted`) and `handleUserDeleted`
    (Clerk `user.deleted`).

External systems (remote storage box reached over ssh, the local mount
table, the Docker daemon as driven by dockerode, the Prisma datastore)
are modelled as explicit state records; failure injection (unreachable
host, failing sshfs, failing docker create) is carried by an `Env`
record.  Docker Engine semantics follow the daemon's documented
behaviour as surfaced by dockerode: stopping an already-stopped
container or starting an already-running one is an HTTP 304 error
(rejected promise), operating on a missing container is a 404 error,
and `remove` with `force: true` removes a container in any state.
The sshfs command refuses an already-used mountpoint (fuse rejects a
busy/non-empty mountpoint with a non-zero exit).
-/

/-- Lifecycle status of a container row, from the Prisma `ContainerStatus` enum. -/
inductive ContainerStatus where
  | CREATING
  | RUNNING
  | STOPPED
  | ERROR
  | SUSPENDED
deriving DecidableEq, Repr

/-- One row of the Prisma `Container` model (the fields the orchestrator reads
and writes; `mediaServerType` is kept as the string the routes receive). -/
structure ContainerRecord where
  id : String
  userId : String
  containerName : String
  mediaServerType : String
  subdomainSlug : String
  status : ContainerStatus
  dockerContainerId : Option String
  externalPort : Option Nat
  hetznerStorageBox : Option String
  mountPath : Option String
  cpuLimit : Rat
  memoryLimit : Nat
  storageQuotaGB : Nat
  lastHealthCheck : Option Nat
deriving DecidableEq, Repr

/-- One row of the Prisma `User` model (the fields the webhook handlers touch). -/
structure UserRecord where
  id : String
  clerkId : String
  email : String
  stripeSubscriptionId : Option String
  subscriptionStatus : String
deriving DecidableEq, Repr

/-- One row of the Prisma `Subscription` model (the fields
`handleSubscriptionDeleted` touches). -/
structure SubscriptionRecord where
  stripeSubscriptionId : String
  status : String
deriving DecidableEq, Repr

/-- One row of the Prisma `ActivityLog` model. -/
structure ActivityEntry where
  userId : String
  action : String
  resource : String
deriving DecidableEq, Repr

/-- The Prisma datastore as the orchestrator sees it. `nextRowId` models
cuid generation for new `Container` rows. -/
structure DB where
  users : List UserRecord
  containers : List ContainerRecord
  subscriptions : List SubscriptionRecord
  activityLogs : List ActivityEntry
  nextRowId : Nat
deriving DecidableEq, Repr

/-- Failure injection and ambient configuration for one request:
whether the storage box answers ssh, whether the sshfs bridge command can
succeed, whether the Docker daemon can create/start and pull, the clock, and
the process environment (`DOMAIN`, `HETZNER_STORAGE_BOX_HOST`). -/
structure Env where
  sshReachable : Bool
  sshfsOk : Bool
  dockerOk : Bool
  pullOk : Bool
  now : Nat
  domain : String
  storageBoxHost : String
deriving DecidableEq, Repr

/-! ## Remote storage box (`HetznerService`, ssh side) -/

/-- The remote storage host: the set of directories that exist on it, at
customer-directory granularity (the paths the service ever creates/removes). -/
structure RemoteFS where
  dirs : List String
deriving DecidableEq, Repr

/-- `executeSSHCommand("mkdir -p <path>")`: connection refused when the host is
unreachable; otherwise `mkdir -p` succeeds and ensures the directory exists. -/
def sshMkdirP (env : Env) (fs : RemoteFS) (path : String) : Except String RemoteFS :=
  if env.sshReachable then
    .ok (if fs.dirs.contains path then fs else { fs with dirs := path :: fs.dirs })
  else
    .error "ssh: connect to host: timed out"

/-- `executeSSHCommand("rm -rf <path>")`: connection refused when the host is
unreachable; otherwise removes the directory (idempotently). -/
def sshRmRf (env : Env) (fs : RemoteFS) (path : String) : Except String RemoteFS :=
  if env.sshReachable then
    .ok { fs with dirs := fs.dirs.filter (fun d => d ≠ path) }
  else
    .error "ssh: connect to host: timed out"

/-- Return value of `HetznerService.createCustomerStorage`. -/
structure StorageResult where
  path : String
  quotaGB : Nat
  host : String
  mountPath : String
deriving DecidableEq, Repr

/-- `HetznerService.createCustomerStorage(customerId, quotaGB = 2048)`:
`mkdir -p /media-storage/<customerId>` over ssh, then return the path,
quota, host, and the local mount path `/mnt/hetzner-storage/<customerId>`.
Any ssh error is rethrown. -/
def createCustomerStorage (env : Env) (fs : RemoteFS) (customerId : String) :
    Except String (StorageResult × RemoteFS) :=
  let customerPath := "/media-storage/" ++ customerId
  match sshMkdirP env fs customerPath with
  | .error e => .error e
  | .ok fs1 =>
      .ok ({ path := customerPath
             quotaGB := 2048
             host := env.storageBoxHost
             mountPath := "/mnt/hetzner-storage/" ++ customerId }, fs1)

/-- `HetznerService.deleteCustomerStorage(customerId)`:
`rm -rf /media-storage/<customerId>` over ssh; returns `true` on success,
rethrows any ssh error. -/
def deleteCustomerStorage (env : Env) (fs : RemoteFS) (customerId : String) :
    Except String (Bool × RemoteFS) :=
  match sshRmRf env fs ("/media-storage/" ++ customerId) with
  | .error e => .error e
  | .ok fs1 => .ok (true, fs1)

/-! ## Local mount table (`HetznerService`, local side) -/

/-- One live sshfs bind: remote path shown at a local mountpoint. -/
structure MountRecord where
  localPath : String
  remotePath : String
deriving DecidableEq, Repr

/-- The local machine: directories created and the mount table. -/
structure MountState where
  localDirs : List String
  mounted : List MountRecord
deriving DecidableEq, Repr

/-- `executeLocalCommand("mkdir -p <path>")`: ensures the local directory. -/
def mkdirLocal (st : MountState) (path : String) : MountState :=
  if st.localDirs.contains path then st else { st with localDirs := path :: st.localDirs }

/-- `executeLocalCommand("sshfs user@host:<remote> <local> -o ...")`: fuse
refuses a mountpoint that is already in use (non-zero exit), a transient
failure is injected through `env.sshfsOk`, otherwise the bind is added. -/
def execSshfs (env : Env) (st : MountState) (remotePath localPath : String) :
    Except String MountState :=
  if st.mounted.any (fun m => m.localPath == localPath) then
    .error "fuse: mountpoint is not empty"
  else if env.sshfsOk then
    .ok { st with mounted := { localPath := localPath, remotePath := remotePath } :: st.mounted }
  else
    .error "sshfs: connection reset by peer"

/-- Return value of `HetznerService.mountCustomerStorage`. -/
structure MountResult where
  localPath : String
  remotePath : String
  mounted : Bool
deriving DecidableEq, Repr

/-- `HetznerService.mountCustomerStorage(customerId, localMountPath)`:
`mkdir -p` the local directory, then run the sshfs command binding
`/media-storage/<customerId>` at `localMountPath`; any error is rethrown. -/
def mountCustomerStorage (env : Env) (st : MountState) (customerId localMountPath : String) :
    Except String (MountResult × MountState) :=
  let remotePath := "/media-storage/" ++ customerId
  let st1 := mkdirLocal st localMountPath
  match execSshfs env st1 remotePath localMountPath with
  | .error e => .error e
  | .ok st2 =>
      .ok ({ localPath := localMountPath, remotePath := remotePath, mounted := true }, st2)

/-! ## Docker runtime (`DockerService` over dockerode) -/

/-- A container known to the Docker daemon. -/
structure DockerInstance where
  name : String
  image : String
  envVars : List String
  running : Bool
  instId : String
  hostPort : Nat
  binds : List String
  memoryBytes : Nat
  cpuShares : Int
deriving DecidableEq, Repr

/-- The Docker daemon: its containers, the locally present images, and the
counters it draws fresh container ids and free host ports from. -/
structure DockerState where
  instances : List DockerInstance
  imagesPresent : List String
  nextId : Nat
  nextPort : Nat
deriving DecidableEq, Repr

/-- Errors the daemon reports through dockerode's rejected promises. -/
inductive DockerErr where
  | noSuchContainer
  | alreadyStopped
  | alreadyStarted
  | nameInUse
  | pullFailed
  | createFailed
deriving DecidableEq, Repr

/-- dockerode `container.stop()`: 404 for a missing container, 304 when the
container is already stopped, otherwise stops it. -/
def dockerStop (st : DockerState) (name : String) : Except DockerErr DockerState :=
  match st.instances.find? (fun i => i.name == name) with
  | none => .error .noSuchContainer
  | some i =>
      if i.running then
        .ok { st with instances :=
          st.instances.map (fun j => if j.name == name then { j with running := false } else j) }
      else
        .error .alreadyStopped

/-- dockerode `container.start()`: 404 for a missing container, 304 when the
container is already running, otherwise starts it. -/
def dockerStart (st : DockerState) (name : String) : Except DockerErr DockerState :=
  match st.instances.find? (fun i => i.name == name) with
  | none => .error .noSuchContainer
  | some i =>
      if i.running then
        .error .alreadyStarted
      else
        .ok { st with instances :=
          st.instances.map (fun j => if j.name == name then { j with running := true } else j) }

/-- dockerode `container.remove(force: true)`: 404 for a missing container,
otherwise removes it whatever its state. -/
def dockerRemoveForce (st : DockerState) (name : String) : Except DockerErr DockerState :=
  match st.instances.find? (fun i => i.name == name) with
  | none => .error .noSuchContainer
  | some _ => .ok { st with instances := st.instances.filter (fun i => !(i.name == name)) }

/-- `DockerService.stopContainer(containerName)`: calls `container.stop()`,
logs and rethrows any error. -/
def stopContainer (st : DockerState) (containerName : String) :
    Except DockerErr DockerState :=
  dockerStop st containerName

/-- `DockerService.startContainer(containerName)`: calls `container.start()`,
logs and rethrows any error. -/
def startContainer (st : DockerState) (containerName : String) :
    Except DockerErr DockerState :=
  dockerStart st containerName

/-- `DockerService.removeContainer(containerName)`: tries `container.stop()`
first, swallowing its error with a warning, then `container.remove(force)`,
rethrowing that error. -/
def removeContainer (st : DockerState) (containerName : String) :
    Except DockerErr DockerState :=
  let st1 := match dockerStop st containerName with
    | .ok s => s
    | .error _ => st
  dockerRemoveForce st1 containerName

/-- Argument record of `DockerService.createMediaServerContainer`. -/
structure CreateContainerConfig where
  userId : String
  containerName : String
  mediaServerType : String
  subdomainSlug : String
  storageMount : String
  cpuLimit : Rat
  memoryLimit : Nat
deriving DecidableEq, Repr

/-- The `imageMap` object literal of `createMediaServerContainer`: lookup of
the image reference by media server type, `none` for any other key. -/
def chooseImage (mediaServerType : String) : Option String :=
  if mediaServerType == "JELLYFIN" then some "jellyfin/jellyfin:latest"
  else if mediaServerType == "PLEX" then some "plexinc/pms-docker:latest"
  else if mediaServerType == "EMBY" then some "emby/embyserver:latest"
  else none

/-- `DockerService.getEnvironmentVariables(config)`: the per-type environment
template over a common base; only the subdomain and `DOMAIN` feed the URLs. -/
def getEnvironmentVariables (env : Env) (config : CreateContainerConfig) : List String :=
  let commonEnv := ["TZ=UTC", "PUID=1000", "PGID=1000"]
  if config.mediaServerType == "JELLYFIN" then
    commonEnv ++ ["JELLYFIN_PublishedServerUrl=https://" ++ config.subdomainSlug ++ "." ++ env.domain]
  else if config.mediaServerType == "PLEX" then
    commonEnv ++ ["PLEX_CLAIM=",
      "ADVERTISE_IP=https://" ++ config.subdomainSlug ++ "." ++ env.domain ++ ":443"]
  else if config.mediaServerType == "EMBY" then
    commonEnv
  else
    commonEnv

/-- `DockerService.pullImageIfNeeded(imageName)`: no-op when the image is
already present locally, otherwise pulls it (failure injected by `env.pullOk`). -/
def pullImageIfNeeded (env : Env) (st : DockerState) (imageName : String) :
    Except DockerErr DockerState :=
  if st.imagesPresent.contains imageName then
    .ok st
  else if env.pullOk then
    .ok { st with imagesPresent := imageName :: st.imagesPresent }
  else
    .error .pullFailed

/-- Return value of `createMediaServerContainer`. -/
structure DockerCreateResult where
  dockerContainerId : String
  externalPort : Option Nat
  status : String
deriving DecidableEq, Repr

/-- `DockerService.createMediaServerContainer(config)`: select the image from
`imageMap` (throwing for an unsupported type), pull it if needed, create the
container with the auto-assigned host port, the bind mounts, the memory limit
in bytes and `floor(cpuLimit * 1024)` CPU shares, start it, and return its id,
host port and status from `inspect`. A daemon-side create/start failure is
injected by `env.dockerOk`; any error is rethrown. -/
def createMediaServerContainer (env : Env) (st : DockerState)
    (config : CreateContainerConfig) :
    Except DockerErr (DockerCreateResult × DockerState) :=
  match chooseImage config.mediaServerType with
  | none => .error .createFailed
  | some image =>
      match pullImageIfNeeded env st image with
      | .error e => .error e
      | .ok st1 =>
          if st1.instances.any (fun i => i.name == config.containerName) then
            .error .nameInUse
          else if env.dockerOk then
            let inst : DockerInstance :=
              { name := config.containerName
                image := image
                envVars := getEnvironmentVariables env config
                running := true
                instId := "cid-" ++ toString st1.nextId
                hostPort := st1.nextPort
                binds := [config.storageMount ++ ":/media",
                          config.containerName ++ "-config:/config"]
                memoryBytes := config.memoryLimit * 1024 * 1024
                cpuShares := ⌊config.cpuLimit * 1024⌋ }
            .ok ({ dockerContainerId := inst.instId
                   externalPort := some inst.hostPort
                   status := "RUNNING" },
                 { st1 with instances := st1.instances ++ [inst]
                            nextId := st1.nextId + 1
                            nextPort := st1.nextPort + 1 })
          else
            .error .createFailed

/-! ## `POST /containers` (create route, `backend/src/routes/containers.ts`) -/

/-- Full system state a request acts on. -/
structure World where
  db : DB
  remote : RemoteFS
  mounts : MountState
  docker : DockerState
deriving DecidableEq, Repr

/-- HTTP outcome of the create route. -/
inductive CreateResult where
  | badRequestMissing
  | badRequestInvalidType
  | conflictUserHasContainer
  | conflictSubdomainTaken
  | created (record : ContainerRecord)
  | dockerFailed
  | serverError
deriving DecidableEq, Repr

/-- Observable step of the create sequence, in execution order. -/
inductive CreateEv where
  | allocStorage
  | bindMount
  | persistCreating
  | dockerCreateStart
  | persistRunning
  | persistError
deriving DecidableEq, Repr

/-- Replace a container row by id. -/
def updateRow (db : DB) (rowId : String) (f : ContainerRecord → ContainerRecord) : DB :=
  { db with containers := db.containers.map (fun c => if c.id == rowId then f c else c) }

/-- Append an activity-log row. -/
def appendLog (db : DB) (userId action resource : String) : DB :=
  { db with activityLogs := db.activityLogs ++ [{ userId := userId, action := action, resource := resource }] }

/-- The `POST /` create-container route: validate the body, reject a second
container per user and a taken subdomain, then allocate storage, mount it,
insert the row with status `CREATING`, create and start the Docker container,
and update the row to `RUNNING` with the container id, parsed host port and
`lastHealthCheck`. A Docker failure marks the row `ERROR` (inner catch); a
storage or mount failure reaches the outer catch as a generic 500 with no row
written. Returns the HTTP outcome, the new world, and the step trace. -/
def createContainerRoute (env : Env) (w : World)
    (userId mediaServerType subdomainSlug : String) :
    CreateResult × World × List CreateEv :=
  if mediaServerType == "" || subdomainSlug == "" then
    (.badRequestMissing, w, [])
  else if !(["JELLYFIN", "PLEX", "EMBY"].contains mediaServerType) then
    (.badRequestInvalidType, w, [])
  else if w.db.containers.any (fun c => c.userId == userId) then
    (.conflictUserHasContainer, w, [])
  else if w.db.containers.any (fun c => c.subdomainSlug == subdomainSlug) then
    (.conflictSubdomainTaken, w, [])
  else
    let containerName := "media-" ++ userId ++ "-" ++ subdomainSlug
    match createCustomerStorage env w.remote userId with
    | .error _ => (.serverError, w, [.allocStorage])
    | .ok (storage, remote1) =>
        let w1 := { w with remote := remote1 }
        match mountCustomerStorage env w1.mounts userId storage.mountPath with
        | .error _ => (.serverError, w1, [.allocStorage, .bindMount])
        | .ok (mount, mounts1) =>
            let w2 := { w1 with mounts := mounts1 }
            let rowId := "row-" ++ toString w2.db.nextRowId
            let row : ContainerRecord :=
              { id := rowId
                userId := userId
                containerName := containerName
                mediaServerType := mediaServerType
                subdomainSlug := subdomainSlug
                status := .CREATING
                dockerContainerId := none
                externalPort := none
                hetznerStorageBox := some storage.path
                mountPath := some mount.localPath
                cpuLimit := (1 : Rat) / 4
                memoryLimit := 800
                storageQuotaGB := 2048
                lastHealthCheck := none }
            let db1 := { w2.db with containers := w2.db.containers ++ [row]
                                    nextRowId := w2.db.nextRowId + 1 }
            let w3 := { w2 with db := db1 }
            let config : CreateContainerConfig :=
              { userId := userId
                containerName := containerName
                mediaServerType := mediaServerType
                subdomainSlug := subdomainSlug
                storageMount := mount.localPath
                cpuLimit := (1 : Rat) / 4
                memoryLimit := 800 }
            match createMediaServerContainer env w3.docker config with
            | .error _ =>
                let db2 := updateRow db1 rowId (fun c => { c with status := .ERROR })
                (.dockerFailed, { w3 with db := db2 },
                 [.allocStorage, .bindMount, .persistCreating, .dockerCreateStart, .persistError])
            | .ok (dockerResult, docker1) =>
                let updated : ContainerRecord :=
                  { row with dockerContainerId := some dockerResult.dockerContainerId
                             externalPort := dockerResult.externalPort
                             status := .RUNNING
                             lastHealthCheck := some env.now }
                let db2 := updateRow db1 rowId (fun c =>
                  { c with dockerContainerId := some dockerResult.dockerContainerId
                           externalPort := dockerResult.externalPort
                           status := .RUNNING
                           lastHealthCheck := some env.now })
                let db3 := appendLog db2 userId "CONTAINER_CREATED" containerName
                (.created updated, { w3 with docker := docker1, db := db3 },
                 [.allocStorage, .bindMount, .persistCreating, .dockerCreateStart, .persistRunning])

/-! ## `POST /containers/:id/start` and `/:id/stop` -/

/-- HTTP outcome of the start/stop routes. -/
inductive ActionResult where
  | notFound
  | serverError
  | success
deriving DecidableEq, Repr

/-- The `POST /:id/start` route: look up the row by id and owner (404 when
absent), call `DockerService.startContainer` (catch → 500 with the row left
untouched), then persist `RUNNING` with a fresh `lastHealthCheck` and log
`CONTAINER_STARTED`. -/
def startContainerRoute (env : Env) (w : World) (userId rowId : String) :
    ActionResult × World :=
  match w.db.containers.find? (fun c => c.id == rowId && c.userId == userId) with
  | none => (.notFound, w)
  | some c =>
      match startContainer w.docker c.containerName with
      | .error _ => (.serverError, w)
      | .ok docker1 =>
          let db1 := updateRow w.db c.id (fun r =>
            { r with status := .RUNNING, lastHealthCheck := some env.now })
          let db2 := appendLog db1 userId "CONTAINER_STARTED" c.containerName
          (.success, { w with docker := docker1, db := db2 })

/-- The `POST /:id/stop` route: look up the row by id and owner (404 when
absent), call `DockerService.stopContainer` (catch → 500 with the row left
untouched), then persist `STOPPED` with a fresh `lastHealthCheck` and log
`CONTAINER_STOPPED`. -/
def stopContainerRoute (env : Env) (w : World) (userId rowId : String) :
    ActionResult × World :=
  match w.db.containers.find? (fun c => c.id == rowId && c.userId == userId) with
  | none => (.notFound, w)
  | some c =>
      match stopContainer w.docker c.containerName with
      | .error _ => (.serverError, w)
      | .ok docker1 =>
          let db1 := updateRow w.db c.id (fun r =>
            { r with status := .STOPPED, lastHealthCheck := some env.now })
          let db2 := appendLog db1 userId "CONTAINER_STOPPED" c.containerName
          (.success, { w with docker := docker1, db := db2 })

/-! ## Webhook handlers (`backend/src/routes/webhooks.ts`) -/

/-- `handleSubscriptionDeleted(subscription)` for Stripe event
`customer.subscription.deleted`: find the user by `stripeSubscriptionId`
(throwing "User not found for subscription" when absent), set the user's
`subscriptionStatus` to `CANCELED` and clear `stripeSubscriptionId`, mark the
matching subscription rows `CANCELED`, and set each of the user's container
rows to status `SUSPENDED`. No runtime, mount or storage call is made. -/
def handleSubscriptionDeleted (subId : String) (w : World) : Except String World :=
  match w.db.users.find? (fun u => u.stripeSubscriptionId == some subId) with
  | none => .error "User not found for subscription"
  | some user =>
      let users1 := w.db.users.map (fun u =>
        if u.id == user.id then
          { u with subscriptionStatus := "CANCELED", stripeSubscriptionId := none }
        else u)
      let subs1 := w.db.subscriptions.map (fun s =>
        if s.stripeSubscriptionId == subId then { s with status := "CANCELED" } else s)
      let conts1 := w.db.containers.map (fun c =>
        if c.userId == user.id then { c with status := .SUSPENDED } else c)
      .ok { w with db := { w.db with users := users1
                                     subscriptions := subs1
                                     containers := conts1 } }

/-- Teardown step of `handleUserDeleted` that was actually attempted. -/
inductive TeardownEv where
  | removeAttempt (containerName : String)
  | storageDeleteAttempt (customerId : String)
deriving DecidableEq, Repr

/-- Per-container cleanup body of `handleUserDeleted`: one `try` block calling
`dockerService.removeContainer(containerName)` and then
`hetznerService.deleteCustomerStorage(user.id)`; the single `catch` logs the
error. A throw from `removeContainer` therefore skips the storage delete. -/
def cleanupContainer (env : Env) (w : World) (userIdOwner containerName : String) :
    World × List TeardownEv :=
  match removeContainer w.docker containerName with
  | .error _ => (w, [.removeAttempt containerName])
  | .ok docker1 =>
      let w1 := { w with docker := docker1 }
      match deleteCustomerStorage env w1.remote userIdOwner with
      | .error _ => (w1, [.removeAttempt containerName, .storageDeleteAttempt userIdOwner])
      | .ok (_, remote1) =>
          ({ w1 with remote := remote1 },
           [.removeAttempt containerName, .storageDeleteAttempt userIdOwner])

/-- `handleUserDeleted(userData)` for Clerk event `user.deleted`: find the user
by `clerkId` (no-op when absent), run the per-container cleanup over the
user's containers, then soft-delete the user row (scrambled email, name
fields replaced, `subscriptionStatus := CANCELED`); the Stripe subscription
cancellation is an external call with no state tracked here. Returns the new
world and the concatenated teardown trace. -/
def handleUserDeleted (env : Env) (clerkId : String) (w : World) :
    World × List TeardownEv :=
  match w.db.users.find? (fun u => u.clerkId == clerkId) with
  | none => (w, [])
  | some user =>
      let own := w.db.containers.filter (fun c => c.userId == user.id)
      let cleaned := own.foldl
        (fun (acc : World × List TeardownEv) c =>
          let step := cleanupContainer env acc.1 user.id c.containerName
          (step.1, acc.2 ++ step.2))
        (w, [])
      let w1 := cleaned.1
      let users1 := w1.db.users.map (fun u =>
        if u.id == user.id then
          { u with email := "deleted_" ++ toString env.now ++ "@deleted.com"
                   subscriptionStatus := "CANCELED" }
        else u)
      ({ w1 with db := { w1.db with users := users1 } }, cleaned.2)

/-! ## Shared concrete fixtures for witnesses and counterexamples -/

/-- A fully healthy environment. -/
def envT : Env :=
  { sshReachable := true, sshfsOk := true, dockerOk := true, pullOk := true,
    now := 100, domain := "example.com", storageBoxHost := "storagebox.example" }

/-- The environment with the storage box unreachable over ssh. -/
def envNoSsh : Env := { envT with sshReachable := false }

/-- A fresh system: empty datastore, empty storage box, nothing mounted, a
Docker daemon that already has the Jellyfin image. -/
def wEmpty : World :=
  { db := { users := [], containers := [], subscriptions := [], activityLogs := [], nextRowId := 0 }
    remote := { dirs := [] }
    mounts := { localDirs := [], mounted := [] }
    docker := { instances := [], imagesPresent := ["jellyfin/jellyfin:latest"],
                nextId := 0, nextPort := 32768 } }

/-- Boolean discriminator for the create route's success outcome. -/
def isCreated : CreateResult → Bool
  | .created _ => true
  | _ => false

/-! ## C7: `createCustomerStorage` is idempotent -/

/-- C7: for every customer id, when the storage box is reachable,
`createCustomerStorage` succeeds, and running it a second time from the state
it produced succeeds again with the same return value and leaves the remote
storage in exactly the same state (the `mkdir -p` is a no-op). -/
theorem createStorage_idempotent (env : Env) (fs : RemoteFS) (customerId : String)
    (h : env.sshReachable = true) :
    ∃ res fs1, createCustomerStorage env fs customerId = .ok (res, fs1)
      ∧ createCustomerStorage env fs1 customerId = .ok (res, fs1) := by
  unfold createCustomerStorage sshMkdirP
  simp only [h, if_true]
  cases hcc : fs.dirs.contains ("/media-storage/" ++ customerId) with
  | true =>
      have hmem : ("/media-storage/" ++ customerId) ∈ fs.dirs := by simpa using hcc
      refine ⟨_, _, rfl, ?_⟩
      simp [hcc, hmem]
  | false =>
      refine ⟨_, _, rfl, ?_⟩
      simp [hcc]

/-- Witness for C7 at a concrete input: the first call from an empty box
succeeds, and the second call from the state it produced returns the same
value and state. -/
theorem createStorage_idempotent_witness :
    envT.sshReachable = true
    ∧ createCustomerStorage envT { dirs := [] } "u1"
        = .ok ({ path := "/media-storage/u1", quotaGB := 2048, host := "storagebox.example",
                 mountPath := "/mnt/hetzner-storage/u1" }, { dirs := ["/media-storage/u1"] })
    ∧ createCustomerStorage envT { dirs := ["/media-storage/u1"] } "u1"
        = .ok ({ path := "/media-storage/u1", quotaGB := 2048, host := "storagebox.example",
                 mountPath := "/mnt/hetzner-storage/u1" }, { dirs := ["/media-storage/u1"] }) := by
  refine ⟨rfl, rfl, ?_⟩
  obtain ⟨res, fs1, h1, h2⟩ := createStorage_idempotent envT { dirs := [] } "u1" rfl
  have hconc : createCustomerStorage envT { dirs := [] } "u1" = .ok
      ({ path := "/media-storage/u1", quotaGB := 2048, host := "storagebox.example",
         mountPath := "/mnt/hetzner-storage/u1" },
       ({ dirs := ["/media-storage/u1"] } : RemoteFS)) := rfl
  have hpair := (Except.ok.injEq _ _).mp (hconc.symm.trans h1)
  rw [Prod.mk.injEq] at hpair
  rw [hpair.1, hpair.2]
  exact h2

/-! ## C6: mount idempotence -/

/-- The mount table after one successful `mountCustomerStorage` for `u1`. -/
def mountedOnce : MountState :=
  { localDirs := ["/mnt/hetzner-storage/u1"],
    mounted := [{ localPath := "/mnt/hetzner-storage/u1", remotePath := "/media-storage/u1" }] }

/-- C6 counterexample: mounting `u1` from a clean machine succeeds, but the
claim that a second mount call on the already-mounted path is a no-op success
is false — the second call re-executes the sshfs command, which fails on the
busy mountpoint, and the error is rethrown. -/
theorem mount_second_call_fails :
    mountCustomerStorage envT { localDirs := [], mounted := [] } "u1" "/mnt/hetzner-storage/u1"
      = .ok ({ localPath := "/mnt/hetzner-storage/u1", remotePath := "/media-storage/u1",
               mounted := true }, mountedOnce)
    ∧ mountCustomerStorage envT mountedOnce "u1" "/mnt/hetzner-storage/u1"
      = .error "fuse: mountpoint is not empty" :=
  ⟨rfl, rfl⟩

/-- C6 amended: `mountCustomerStorage` has no already-mounted guard — whenever
the local path is already a mountpoint, the call re-runs the mount command and
fails with its error instead of returning a no-op success. -/
theorem mount_rerun_not_noop (env : Env) (st : MountState) (customerId localMountPath : String)
    (h : st.mounted.any (fun m => m.localPath == localMountPath) = true) :
    mountCustomerStorage env st customerId localMountPath
      = .error "fuse: mountpoint is not empty" := by
  unfold mountCustomerStorage execSshfs mkdirLocal
  cases hld : st.localDirs.contains localMountPath <;> simp [hld, h]

/-- Witness for the amended C6 at a concrete input. -/
theorem mount_rerun_not_noop_witness :
    mountedOnce.mounted.any (fun m => m.localPath == "/mnt/hetzner-storage/u1") = true
    ∧ mountCustomerStorage envT mountedOnce "u1" "/mnt/hetzner-storage/u1"
      = .error "fuse: mountpoint is not empty" :=
  ⟨rfl, mount_rerun_not_noop envT mountedOnce "u1" "/mnt/hetzner-storage/u1" rfl⟩

/-! ## C5: runtime adapter stop/start/remove idempotence -/

/-- A daemon holding one stopped container named `media-u1-movies`. -/
def dockerOneStopped : DockerState :=
  { instances := [{ name := "media-u1-movies", image := "jellyfin/jellyfin:latest",
                    envVars := [], running := false, instId := "cid-9", hostPort := 32768,
                    binds := [], memoryBytes := 838860800, cpuShares := 256 }],
    imagesPresent := ["jellyfin/jellyfin:latest"], nextId := 10, nextPort := 32769 }

/-- C5 counterexample: `DockerService.stopContainer` on a container the
runtime reports as already stopped rethrows the daemon's 304 error instead of
returning success. -/
theorem stop_already_stopped_errors :
    stopContainer dockerOneStopped "media-u1-movies" = .error .alreadyStopped :=
  rfl

/-- Over the map rewriting one container's `running` flag, `find?` by name
commutes because the rewrite preserves names. -/
theorem find?_map_name (l : List DockerInstance) (g : DockerInstance → DockerInstance)
    (hg : ∀ j, (g j).name = j.name) (name : String) :
    (l.map g).find? (fun j => j.name == name) = (l.find? (fun j => j.name == name)).map g := by
  induction l with
  | nil => rfl
  | cons a t ih =>
      simp only [List.map_cons, List.find?_cons]
      rw [hg a]
      cases h : (a.name == name) <;> simp [h, ih]

/-- After filtering a name out of the daemon's container list, `find?` by that
name yields nothing. -/
theorem filter_out_find?_none (l : List DockerInstance) (name : String) :
    (l.filter (fun j => !(j.name == name))).find? (fun j => j.name == name) = none := by
  rw [List.find?_eq_none]
  intro x hx
  simp only [List.mem_filter] at hx
  simpa using hx.2

/-- C5 amended: for a container the daemon knows, `stopContainer` on an
already-stopped container and `startContainer` on an already-running one
rethrow the daemon's already-in-desired-state error (they are not idempotent);
only `removeContainer` is tolerant — its internal pre-stop error is swallowed
and the forced remove succeeds from any state, leaving no container of that
name. -/
theorem runtime_ops_propagate_already_errors (st : DockerState) (name : String)
    (i : DockerInstance)
    (hfind : st.instances.find? (fun j => j.name == name) = some i) :
    (i.running = false → stopContainer st name = .error .alreadyStopped)
    ∧ (i.running = true → startContainer st name = .error .alreadyStarted)
    ∧ ∃ st', removeContainer st name = .ok st'
        ∧ st'.instances.find? (fun j => j.name == name) = none := by
  refine ⟨?_, ?_, ?_⟩
  · intro h
    unfold stopContainer dockerStop
    rw [hfind]
    simp [h]
  · intro h
    unfold startContainer dockerStart
    rw [hfind]
    simp [h]
  · cases hr : i.running with
    | false =>
        have h1 : dockerStop st name = .error .alreadyStopped := by
          unfold dockerStop
          rw [hfind]
          simp [hr]
        unfold removeContainer
        rw [h1]
        dsimp only
        unfold dockerRemoveForce
        rw [hfind]
        exact ⟨_, rfl, filter_out_find?_none _ _⟩
    | true =>
        have h1 : ∃ st₁, dockerStop st name = .ok st₁
            ∧ st₁.instances = st.instances.map
                (fun j => if j.name == name then { j with running := false } else j) := by
          unfold dockerStop
          rw [hfind]
          simp [hr]
        obtain ⟨st₁, hst₁, hinst⟩ := h1
        have hf2 : st₁.instances.find? (fun j => j.name == name)
            = some (if i.name == name then { i with running := false } else i) := by
          rw [hinst, find?_map_name _ _ (fun j => by
            cases hj : (j.name == name) <;> simp [hj]) name, hfind]
          rfl
        unfold removeContainer
        rw [hst₁]
        dsimp only
        unfold dockerRemoveForce
        rw [hf2]
        exact ⟨_, rfl, filter_out_find?_none _ _⟩

/-- Witness for the amended C5 at a concrete input. -/
theorem runtime_ops_propagate_witness :
    dockerOneStopped.instances.find? (fun j => j.name == "media-u1-movies")
      = some { name := "media-u1-movies", image := "jellyfin/jellyfin:latest",
               envVars := [], running := false, instId := "cid-9", hostPort := 32768,
               binds := [], memoryBytes := 838860800, cpuShares := 256 }
    ∧ stopContainer dockerOneStopped "media-u1-movies" = .error .alreadyStopped :=
  ⟨rfl, ((runtime_ops_propagate_already_errors dockerOneStopped "media-u1-movies" _ rfl).1 rfl)⟩

/-! ## C10: start/stop error atomicity at the datastore -/

/-- C10: in the start and stop routes the datastore row is written only after
the runtime call returns: when `startContainer`/`stopContainer` throws, the
route answers with the 500 error and the whole world — every field of the
persisted record included — is unchanged. -/
theorem start_stop_error_atomic :
    (∀ (env : Env) (w : World) (userId rowId : String) (c : ContainerRecord) (e : DockerErr),
       w.db.containers.find? (fun r => r.id == rowId && r.userId == userId) = some c →
       startContainer w.docker c.containerName = .error e →
       startContainerRoute env w userId rowId = (.serverError, w))
    ∧ (∀ (env : Env) (w : World) (userId rowId : String) (c : ContainerRecord) (e : DockerErr),
       w.db.containers.find? (fun r => r.id == rowId && r.userId == userId) = some c →
       stopContainer w.docker c.containerName = .error e →
       stopContainerRoute env w userId rowId = (.serverError, w)) := by
  constructor
  · intro env w userId rowId c e hfind herr
    unfold startContainerRoute
    rw [hfind]
    dsimp only
    rw [herr]
  · intro env w userId rowId c e hfind herr
    unfold stopContainerRoute
    rw [hfind]
    dsimp only
    rw [herr]

/-- A persisted row whose container the Docker daemon no longer knows. -/
def rowStopped : ContainerRecord :=
  { id := "row-0", userId := "u1", containerName := "media-u1-movies",
    mediaServerType := "JELLYFIN", subdomainSlug := "movies", status := .STOPPED,
    dockerContainerId := some "cid-0", externalPort := some 32768,
    hetznerStorageBox := some "/media-storage/u1", mountPath := some "/mnt/hetzner-storage/u1",
    cpuLimit := (1 : Rat) / 4, memoryLimit := 800, storageQuotaGB := 2048,
    lastHealthCheck := none }

/-- A world holding only that orphaned row; its daemon has no containers. -/
def wOrphanRow : World :=
  { wEmpty with db := { wEmpty.db with containers := [rowStopped], nextRowId := 1 } }

/-- Witness for C10 at a concrete input: the runtime start call fails (the
daemon knows no such container) and the route leaves the world untouched. -/
theorem start_stop_error_atomic_witness :
    wOrphanRow.db.containers.find? (fun r => r.id == "row-0" && r.userId == "u1") = some rowStopped
    ∧ startContainer wOrphanRow.docker rowStopped.containerName = .error .noSuchContainer
    ∧ startContainerRoute envT wOrphanRow "u1" "row-0" = (.serverError, wOrphanRow) :=
  ⟨rfl, rfl, start_stop_error_atomic.1 envT wOrphanRow "u1" "row-0" rowStopped .noSuchContainer rfl rfl⟩

/-! ## C8: the runtime-handle invariant of the persisted row -/

/-- The world after one successful create of `u1`/`JELLYFIN`/`movies`. -/
def wAfterCreate : World := (createContainerRoute envT wEmpty "u1" "JELLYFIN" "movies").2.1

/-- C8 counterexample: after a successful create, stopping the container
succeeds, yet the persisted row keeps `dockerContainerId` and `externalPort`
non-null while its `lifecycleStatus` is `STOPPED` — so the invariant that
these fields are non-null only in `RUNNING` does not hold. -/
theorem stopped_row_keeps_handles :
    (stopContainerRoute envT wAfterCreate "u1" "row-0").1 = .success
    ∧ (stopContainerRoute envT wAfterCreate "u1" "row-0").2.db.containers.map
        (fun c => (c.status, c.dockerContainerId, c.externalPort))
        = [(ContainerStatus.STOPPED, some "cid-0", some 32768)] :=
  ⟨rfl, rfl⟩

/-- C8 amended: the stop route never clears the runtime handles — on a
successful stop it persists `STOPPED` for the row while leaving
`dockerContainerId` and `externalPort` of every row exactly as they were. -/
theorem stop_route_keeps_handles (env : Env) (w : World) (userId rowId : String)
    (c : ContainerRecord) (d1 : DockerState)
    (hfind : w.db.containers.find? (fun r => r.id == rowId && r.userId == userId) = some c)
    (hstop : stopContainer w.docker c.containerName = .ok d1) :
    ∃ w', stopContainerRoute env w userId rowId = (.success, w')
      ∧ w'.db.containers.map (fun r => (r.dockerContainerId, r.externalPort))
          = w.db.containers.map (fun r => (r.dockerContainerId, r.externalPort))
      ∧ ∀ r ∈ w'.db.containers, r.id = c.id → r.status = .STOPPED := by
  unfold stopContainerRoute
  rw [hfind]
  dsimp only
  rw [hstop]
  dsimp only
  refine ⟨_, rfl, ?_, ?_⟩
  · unfold appendLog updateRow
    dsimp only
    rw [List.map_map]
    apply List.map_congr_left
    intro r _
    simp only [Function.comp_apply]
    split <;> rfl
  · unfold appendLog updateRow
    dsimp only
    intro r hr hid
    obtain ⟨r0, hr0, hgr⟩ := List.mem_map.mp hr
    cases h0 : (r0.id == c.id) with
    | true => rw [← hgr]; simp [h0]
    | false =>
        rw [← hgr] at hid
        simp [h0] at hid
        exact absurd (beq_iff_eq.mpr hid) (by simp [h0])

/-- Witness for the amended C8 at a concrete input: the stop succeeds and no
row's runtime handles change. -/
theorem stop_route_keeps_handles_witness :
    (stopContainerRoute envT wAfterCreate "u1" "row-0").1 = .success
    ∧ (stopContainerRoute envT wAfterCreate "u1" "row-0").2.db.containers.map
        (fun r => (r.dockerContainerId, r.externalPort))
      = wAfterCreate.db.containers.map (fun r => (r.dockerContainerId, r.externalPort)) := by
  obtain ⟨w', hw', hmap, _⟩ :=
    stop_route_keeps_handles envT wAfterCreate "u1" "row-0" _ _ rfl rfl
  rw [hw']
  exact ⟨rfl, hmap⟩

/-! ## C1: order of the create sequence -/

/-- A successful `createMediaServerContainer` always reports the
runtime-assigned host port. -/
theorem createMediaServerContainer_port (env : Env) (st : DockerState)
    (config : CreateContainerConfig) (r : DockerCreateResult) (st' : DockerState)
    (h : createMediaServerContainer env st config = .ok (r, st')) :
    r.externalPort.isSome = true := by
  unfold createMediaServerContainer at h
  cases himg : chooseImage config.mediaServerType with
  | none => rw [himg] at h; exact absurd h (by simp)
  | some image =>
      rw [himg] at h
      dsimp only at h
      cases hpull : pullImageIfNeeded env st image with
      | error e => rw [hpull] at h; exact absurd h (by simp)
      | ok st1 =>
          rw [hpull] at h
          dsimp only at h
          cases hname : st1.instances.any (fun i => i.name == config.containerName) with
          | true => rw [hname] at h; exact absurd h (by simp)
          | false =>
              rw [hname] at h
              cases hok : env.dockerOk with
              | false => simp [hok] at h
              | true =>
                  simp only [hok, Bool.false_eq_true, if_false, if_true] at h
                  obtain ⟨hr, _⟩ := Prod.mk.injEq .. |>.mp (Except.ok.inj h)
                  rw [← hr]
                  rfl

/-- C1 amended: every create request that succeeds executes the steps in the
order allocate storage → bind mount → persist `CREATING` → create+start
container → persist `RUNNING` with the runtime instance id and external port.
The `CREATING` status is persisted only after storage allocation and the
mount, not before, and the status is persisted twice (before and after the
container step), not only at the end. -/
theorem create_success_sequence (env : Env) (w : World) (u t s : String)
    (r : ContainerRecord) (w' : World) (tr : List CreateEv)
    (h : createContainerRoute env w u t s = (.created r, w', tr)) :
    tr = [CreateEv.allocStorage, CreateEv.bindMount, CreateEv.persistCreating,
          CreateEv.dockerCreateStart, CreateEv.persistRunning]
    ∧ r.status = ContainerStatus.RUNNING
    ∧ r.dockerContainerId.isSome = true
    ∧ r.externalPort.isSome = true := by
  unfold createContainerRoute at h
  split at h
  · exact absurd h (by simp)
  · split at h
    · exact absurd h (by simp)
    · split at h
      · exact absurd h (by simp)
      · split at h
        · exact absurd h (by simp)
        · cases hst : createCustomerStorage env w.remote u with
          | error e => rw [hst] at h; exact absurd h (by simp)
          | ok pr =>
              obtain ⟨storage, remote1⟩ := pr
              rw [hst] at h
              dsimp only at h
              cases hmt : mountCustomerStorage env w.mounts u storage.mountPath with
              | error e => rw [hmt] at h; exact absurd h (by simp)
              | ok pm =>
                  obtain ⟨mount, mounts1⟩ := pm
                  rw [hmt] at h
                  dsimp only at h
                  cases hdk : createMediaServerContainer env w.docker
                      { userId := u
                        containerName := "media-" ++ u ++ "-" ++ s
                        mediaServerType := t
                        subdomainSlug := s
                        storageMount := mount.localPath
                        cpuLimit := (1 : Rat) / 4
                        memoryLimit := 800 } with
                  | error e => rw [hdk] at h; exact absurd h (by simp)
                  | ok pd =>
                      obtain ⟨dockerResult, docker1⟩ := pd
                      rw [hdk] at h
                      dsimp only at h
                      injection h with hA hBC
                      injection hBC with hB hC
                      injection hA with hr
                      subst hC
                      subst hr
                      refine ⟨rfl, rfl, rfl, ?_⟩
                      exact createMediaServerContainer_port _ _ _ _ _ hdk

/-- C1 counterexample: a concrete successful create produces the trace with
`allocStorage` first and `persistCreating` third — not the claimed trace in
which `CREATING` is persisted before storage allocation. -/
theorem creating_persisted_after_storage :
    isCreated (createContainerRoute envT wEmpty "u1" "JELLYFIN" "movies").1 = true
    ∧ (createContainerRoute envT wEmpty "u1" "JELLYFIN" "movies").2.2
        = [CreateEv.allocStorage, CreateEv.bindMount, CreateEv.persistCreating,
           CreateEv.dockerCreateStart, CreateEv.persistRunning]
    ∧ (createContainerRoute envT wEmpty "u1" "JELLYFIN" "movies").2.2
        ≠ [CreateEv.persistCreating, CreateEv.allocStorage, CreateEv.bindMount,
           CreateEv.dockerCreateStart, CreateEv.persistRunning] :=
  ⟨rfl, rfl, by decide⟩

/-- Witness for the amended C1 at a concrete successful create. -/
theorem create_success_sequence_witness :
    (createContainerRoute envT wEmpty "u1" "JELLYFIN" "movies").2.2
      = [CreateEv.allocStorage, CreateEv.bindMount, CreateEv.persistCreating,
         CreateEv.dockerCreateStart, CreateEv.persistRunning] := by
  obtain ⟨htr, _, _, _⟩ := create_success_sequence envT wEmpty "u1" "JELLYFIN" "movies" _ _ _ rfl
  exact htr

/-! ## C2: storage-allocation failure during create -/

/-- C2 amended: when the request is valid and conflict-free but the remote
storage host is unreachable, the create route fails with the generic 500
answer after only the storage-allocation attempt, and the world — datastore
included — is completely unchanged: no row is written at all, so no `ERROR`
status is persisted and no container exists for the customer. -/
theorem create_storage_failure_no_row (env : Env) (w : World) (u t s : String)
    (h1 : (t == "" || s == "") = false)
    (h2 : (["JELLYFIN", "PLEX", "EMBY"].contains t) = true)
    (h3 : (w.db.containers.any (fun c => c.userId == u)) = false)
    (h4 : (w.db.containers.any (fun c => c.subdomainSlug == s)) = false)
    (h5 : env.sshReachable = false) :
    createContainerRoute env w u t s = (.serverError, w, [.allocStorage]) := by
  have hst : createCustomerStorage env w.remote u
      = .error "ssh: connect to host: timed out" := by
    unfold createCustomerStorage sshMkdirP
    simp [h5]
  unfold createContainerRoute
  rw [h1, h2, h3, h4]
  simp only [Bool.not_true, Bool.false_eq_true, if_false]
  rw [hst]

/-- C2 counterexample: with the storage host unreachable the route answers the
generic 500, and afterwards the datastore holds no row for the customer (in
particular none with status `ERROR`) and the runtime holds no container. -/
theorem storage_failure_leaves_no_error_row :
    (createContainerRoute envNoSsh wEmpty "u2" "JELLYFIN" "shows").1 = .serverError
    ∧ (createContainerRoute envNoSsh wEmpty "u2" "JELLYFIN" "shows").2.1.db.containers = []
    ∧ (createContainerRoute envNoSsh wEmpty "u2" "JELLYFIN" "shows").2.1.docker.instances = [] :=
  ⟨rfl, rfl, rfl⟩

/-- Witness for the amended C2 at a concrete input. -/
theorem create_storage_failure_no_row_witness :
    createContainerRoute envNoSsh wEmpty "u2" "JELLYFIN" "shows"
      = (.serverError, wEmpty, [.allocStorage]) :=
  create_storage_failure_no_row envNoSsh wEmpty "u2" "JELLYFIN" "shows" rfl rfl rfl rfl rfl

/-! ## C9: static image selection -/

/-- A successful `createMediaServerContainer` gives the new (last) container
exactly the image that the static `imageMap` assigns to the workload type. -/
theorem createMediaServerContainer_image (env : Env) (st : DockerState)
    (config : CreateContainerConfig) (r : DockerCreateResult) (st' : DockerState)
    (h : createMediaServerContainer env st config = .ok (r, st')) :
    (st'.instances.getLast?).map (fun i => i.image) = chooseImage config.mediaServerType := by
  unfold createMediaServerContainer at h
  cases himg : chooseImage config.mediaServerType with
  | none => rw [himg] at h; exact absurd h (by simp)
  | some image =>
      rw [himg] at h
      dsimp only at h
      cases hpull : pullImageIfNeeded env st image with
      | error e => rw [hpull] at h; exact absurd h (by simp)
      | ok st1 =>
          rw [hpull] at h
          dsimp only at h
          cases hname : st1.instances.any (fun i => i.name == config.containerName) with
          | true => rw [hname] at h; exact absurd h (by simp)
          | false =>
              rw [hname] at h
              cases hok : env.dockerOk with
              | false => simp [hok] at h
              | true =>
                  simp only [hok, Bool.false_eq_true, if_false, if_true] at h
                  obtain ⟨_, hst⟩ := Prod.mk.injEq .. |>.mp (Except.ok.inj h)
                  rw [← hst]
                  dsimp only
                  rw [List.getLast?_concat]
                  rfl

/-- C9: the image reference is a static closed mapping over the workload type:
(1) every container the runtime creates carries the image `imageMap` assigns
to the request's type; (2) a request whose type lies outside
`JELLYFIN`/`PLEX`/`EMBY` is rejected with a 400 before any service call, the
world untouched; (3) two successful creates with the same type use the same
image whatever the other inputs (user id, slug, mount path, daemon state). -/
theorem image_selection_static :
    (∀ (env : Env) (st : DockerState) (config : CreateContainerConfig)
       (r : DockerCreateResult) (st' : DockerState),
       createMediaServerContainer env st config = .ok (r, st') →
       (st'.instances.getLast?).map (fun i => i.image) = chooseImage config.mediaServerType)
    ∧ (∀ (env : Env) (w : World) (u t s : String),
       (["JELLYFIN", "PLEX", "EMBY"].contains t) = false →
       createContainerRoute env w u t s = (.badRequestMissing, w, [])
       ∨ createContainerRoute env w u t s = (.badRequestInvalidType, w, []))
    ∧ (∀ (env₁ : Env) (st₁ : DockerState) (c₁ : CreateContainerConfig)
         (r₁ : DockerCreateResult) (st₁' : DockerState)
         (env₂ : Env) (st₂ : DockerState) (c₂ : CreateContainerConfig)
         (r₂ : DockerCreateResult) (st₂' : DockerState),
       c₁.mediaServerType = c₂.mediaServerType →
       createMediaServerContainer env₁ st₁ c₁ = .ok (r₁, st₁') →
       createMediaServerContainer env₂ st₂ c₂ = .ok (r₂, st₂') →
       (st₁'.instances.getLast?).map (fun i => i.image)
         = (st₂'.instances.getLast?).map (fun i => i.image)) := by
  refine ⟨fun env st config r st' h => createMediaServerContainer_image env st config r st' h,
          ?_, ?_⟩
  · intro env w u t s hcont
    unfold createContainerRoute
    cases hts : (t == "" || s == "") with
    | true => exact Or.inl (by simp [hts])
    | false =>
        right
        rw [hcont]
        simp only [Bool.not_false, Bool.false_eq_true, if_false, if_true]
  · intro env₁ st₁ c₁ r₁ st₁' env₂ st₂ c₂ r₂ st₂' hmt h1 h2
    rw [createMediaServerContainer_image env₁ st₁ c₁ r₁ st₁' h1,
        createMediaServerContainer_image env₂ st₂ c₂ r₂ st₂' h2, hmt]

/-- Witness for C9 at concrete inputs: the unknown type `BADTYPE` is rejected
with the world untouched, and the concrete Jellyfin create used the mapped
image. -/
theorem image_selection_static_witness :
    (["JELLYFIN", "PLEX", "EMBY"].contains "BADTYPE") = false
    ∧ (createContainerRoute envT wEmpty "u1" "BADTYPE" "movies" = (.badRequestMissing, wEmpty, [])
       ∨ createContainerRoute envT wEmpty "u1" "BADTYPE" "movies"
           = (.badRequestInvalidType, wEmpty, []))
    ∧ wAfterCreate.docker.instances.getLast?.map (fun i => i.image) = chooseImage "JELLYFIN" := by
  refine ⟨rfl, image_selection_static.2.1 envT wEmpty "u1" "BADTYPE" "movies" rfl, ?_⟩
  exact image_selection_static.1 envT wEmpty.docker
    { userId := "u1", containerName := "media-u1-movies", mediaServerType := "JELLYFIN",
      subdomainSlug := "movies", storageMount := "/mnt/hetzner-storage/u1",
      cpuLimit := (1 : Rat) / 4, memoryLimit := 800 } _ _ rfl

/-! ## C3: best-effort teardown in `handleUserDeleted` -/

/-- A user row matching the Clerk id of the C3/C4 scenarios. -/
def userU1 : UserRecord :=
  { id := "u1", clerkId := "ck1", email := "u1@example.com",
    stripeSubscriptionId := none, subscriptionStatus := "ACTIVE" }

/-- A world where `u1` has a persisted container row and allocated remote
storage, but the Docker daemon no longer knows the container (so the remove
step fails with 404). -/
def wC3 : World :=
  { db := { users := [userU1], containers := [rowStopped], subscriptions := [],
            activityLogs := [], nextRowId := 1 }
    remote := { dirs := ["/media-storage/u1"] }
    mounts := mountedOnce
    docker := { instances := [], imagesPresent := [], nextId := 0, nextPort := 32768 } }

/-- C3 counterexample: in the delete sequence for `ck1` the container-remove
step fails, and contrary to the claim the storage-delete step is never
attempted — the trace holds only the remove attempt and the customer's remote
directory survives. (There is no unmount step in the sequence at all.) -/
theorem remove_failure_skips_storage_delete :
    (handleUserDeleted envT "ck1" wC3).2 = [TeardownEv.removeAttempt "media-u1-movies"]
    ∧ (handleUserDeleted envT "ck1" wC3).1.remote.dirs = ["/media-storage/u1"] :=
  ⟨rfl, rfl⟩

/-- C3 amended: the per-container teardown runs remove-container and then
delete-storage inside one `try` block (there is no stop or unmount step);
when the remove step throws, the single `catch` swallows the error, the
storage delete is skipped, and remote storage and the daemon are left
untouched while the webhook proceeds. -/
theorem userDeleted_remove_failure_skips (env : Env) (w : World) (clerkId : String)
    (user : UserRecord) (c : ContainerRecord) (e : DockerErr)
    (hu : w.db.users.find? (fun x => x.clerkId == clerkId) = some user)
    (hc : w.db.containers.filter (fun r => r.userId == user.id) = [c])
    (hrm : removeContainer w.docker c.containerName = .error e) :
    (handleUserDeleted env clerkId w).2 = [.removeAttempt c.containerName]
    ∧ (handleUserDeleted env clerkId w).1.remote = w.remote
    ∧ (handleUserDeleted env clerkId w).1.docker = w.docker := by
  unfold handleUserDeleted
  rw [hu]
  dsimp only
  rw [hc]
  dsimp only [List.foldl]
  unfold cleanupContainer
  rw [hrm]
  dsimp only
  exact ⟨rfl, rfl, rfl⟩

/-- Witness for the amended C3 at the concrete world. -/
theorem userDeleted_remove_failure_skips_witness :
    wC3.db.users.find? (fun x => x.clerkId == "ck1") = some userU1
    ∧ wC3.db.containers.filter (fun r => r.userId == userU1.id) = [rowStopped]
    ∧ removeContainer wC3.docker rowStopped.containerName = .error .noSuchContainer
    ∧ (handleUserDeleted envT "ck1" wC3).2 = [.removeAttempt rowStopped.containerName] := by
  refine ⟨rfl, rfl, rfl, ?_⟩
  exact (userDeleted_remove_failure_skips envT wC3 "ck1" userU1 rowStopped
    .noSuchContainer rfl rfl rfl).1

/-! ## C4: the `cancelled` billing event -/

/-- The subscribed user of the C4 scenario. -/
def userSub : UserRecord :=
  { id := "u1", clerkId := "ck1", email := "u1@example.com",
    stripeSubscriptionId := some "sub1", subscriptionStatus := "ACTIVE" }

/-- The `u1` container row in `RUNNING` state. -/
def rowRunning : ContainerRecord := { rowStopped with status := .RUNNING }

/-- A daemon actually running `u1`'s container. -/
def dockerOneRunning : DockerState :=
  { instances := [{ name := "media-u1-movies", image := "jellyfin/jellyfin:latest",
                    envVars := [], running := true, instId := "cid-0", hostPort := 32768,
                    binds := [], memoryBytes := 838860800, cpuShares := 256 }],
    imagesPresent := ["jellyfin/jellyfin:latest"], nextId := 1, nextPort := 32769 }

/-- A world where `u1` holds subscription `sub1` and a `RUNNING` container. -/
def wC4 : World :=
  { db := { users := [userSub], containers := [rowRunning],
            subscriptions := [{ stripeSubscriptionId := "sub1", status := "ACTIVE" }],
            activityLogs := [], nextRowId := 1 }
    remote := { dirs := ["/media-storage/u1"] }
    mounts := mountedOnce
    docker := dockerOneRunning }

/-- The world after the first delivery of `cancelled` for `sub1`. -/
def afterCancel : World :=
  match handleSubscriptionDeleted "sub1" wC4 with
  | .ok w => w
  | .error _ => wC4

/-- C4 counterexample: the first `cancelled` delivery on the `RUNNING`
instance succeeds but only suspends — the row survives with status
`SUSPENDED` and the runtime and storage are untouched (no teardown, no
`DELETED`/record removal) — and the second delivery fails with
"User not found for subscription" instead of being an idempotent success. -/
theorem cancelled_suspends_and_second_delivery_fails :
    (handleSubscriptionDeleted "sub1" wC4).toOption.isSome = true
    ∧ afterCancel.db.containers.map (fun c => c.status) = [ContainerStatus.SUSPENDED]
    ∧ afterCancel.db.containers.length = 1
    ∧ afterCancel.docker = wC4.docker
    ∧ afterCancel.remote = wC4.remote
    ∧ handleSubscriptionDeleted "sub1" afterCancel
        = .error "User not found for subscription" :=
  ⟨rfl, rfl, rfl, rfl, rfl, rfl⟩

/-- C4 amended: for the uniquely matching user, `cancelled` marks the user
`CANCELED`, clears `stripeSubscriptionId`, and sets the user's container rows
to `SUSPENDED` — runtime, mount and storage state untouched and no record
removed — and because the subscription id was cleared, re-delivering the same
event fails with "User not found for subscription" rather than succeeding as
a no-op. -/
theorem subscriptionDeleted_suspends (subId : String) (w : World) (user : UserRecord)
    (hu : w.db.users.find? (fun x => x.stripeSubscriptionId == some subId) = some user)
    (huniq : w.db.users.filter (fun x => x.stripeSubscriptionId == some subId) = [user]) :
    ∃ w', handleSubscriptionDeleted subId w = .ok w'
      ∧ w'.docker = w.docker ∧ w'.remote = w.remote ∧ w'.mounts = w.mounts
      ∧ w'.db.containers = w.db.containers.map
          (fun c => if c.userId == user.id then { c with status := .SUSPENDED } else c)
      ∧ handleSubscriptionDeleted subId w' = .error "User not found for subscription" := by
  unfold handleSubscriptionDeleted
  rw [hu]
  dsimp only
  refine ⟨_, rfl, rfl, rfl, rfl, rfl, ?_⟩
  have hnone : (w.db.users.map (fun u =>
      if u.id == user.id then
        { u with subscriptionStatus := "CANCELED", stripeSubscriptionId := none }
      else u)).find? (fun x => x.stripeSubscriptionId == some subId) = none := by
    rw [List.find?_eq_none]
    intro x hx
    obtain ⟨x0, hx0, hfx⟩ := List.mem_map.mp hx
    cases hid : (x0.id == user.id) with
    | true =>
        rw [← hfx]
        simp [hid]
    | false =>
        rw [← hfx]
        simp only [hid, Bool.false_eq_true, if_false]
        intro hpred
        have hmem : x0 ∈ w.db.users.filter (fun x => x.stripeSubscriptionId == some subId) :=
          List.mem_filter.mpr ⟨hx0, by simpa using hpred⟩
        rw [huniq] at hmem
        have hx0u : x0 = user := by simpa using hmem
        rw [hx0u] at hid
        simp at hid
  dsimp only
  rw [hnone]

/-- Witness for the amended C4 at the concrete world. -/
theorem subscriptionDeleted_suspends_witness :
    wC4.db.users.find? (fun x => x.stripeSubscriptionId == some "sub1") = some userSub
    ∧ wC4.db.users.filter (fun x => x.stripeSubscriptionId == some "sub1") = [userSub]
    ∧ (handleSubscriptionDeleted "sub1" wC4).toOption.isSome = true := by
  refine ⟨rfl, rfl, ?_⟩
  obtain ⟨w', hw', _⟩ := subscriptionDeleted_suspends "sub1" wC4 userSub rfl rfl
  rw [hw']
  rfl
